import Mathlib

set_option maxRecDepth 8192
set_option maxHeartbeats 2000000

/-!
Verification development for the ChatList repository (src/network.py, src/models.py,
src/config.py): a shallow embedding of the concurrent multi-target dispatch engine and
the structured-response parser, together with proofs settling the specification claims.

Conventions of the embedding:
* Python strings are Lean `String`s; character-level work uses `List Char`.
* Python's dynamic JSON values (`json.loads` output and HTTP response bodies) are the
  inductive `JValue`; finite JSON numbers are modelled as exact rationals (no IEEE
  rounding is modelled — no claim observes numeric values), and the non-finite float
  literals `NaN`/`Infinity`/`-Infinity` that Python's `json.loads` accepts by default
  are a distinguished constructor.  The interpreter recursion limit that makes
  `json.loads` raise `RecursionError` on deeply nested documents is modelled by the
  constant `jsonRecursionLimit`.
* Python exceptions that can escape the embedded functions are the inductive `PyExc`;
  fallible code returns `Except PyExc _`.
* `os.getenv("OPENROUTER_API_KEY")` is an `Option String` parameter `env`.
* The HTTP transport (`requests.post`) is an abstract parameter
  `post : HttpRequest → PostOutcome`; each embedded adapter also returns the list of
  requests it issued, so "no network call" is the trace being `[]`.
* Wall-clock durations (`time.time()` differences) are an abstract `Rat` parameter.
* The handful of complex free-text regular expressions of the text-parsing layer
  (network.py lines 562-611) are abstract oracles in `ParseOracles`; the claims settled
  here hold for every behaviour of those oracles.  The brace-scanning JSON-extraction
  regex (line 543) and the line splitting/stripping are modelled concretely.
-/

/-! Python string primitives -/

/-- Whitespace characters recognised by Python's `str.strip()` (ASCII subset). -/
def isPySpace (c : Char) : Bool :=
  c = ' ' || c = '\t' || c = '\n' || c = '\r' || c = Char.ofNat 11 || c = Char.ofNat 12

/-- Python `str.strip()` on a character list. -/
def pyStripL (l : List Char) : List Char :=
  ((l.dropWhile isPySpace).reverse.dropWhile isPySpace).reverse

/-- Python `str.strip()`. -/
def pyStrip (s : String) : String := String.mk (pyStripL s.data)

/-- Python `str.split('\n')` (keeps empty pieces, as Python does). -/
def splitNL : List Char → List (List Char)
  | [] => [[]]
  | c :: rest =>
    if c = '\n' then [] :: splitNL rest
    else
      match splitNL rest with
      | [] => [[c]]
      | l :: ls => (c :: l) :: ls

/-- Python `'\n'.join` on character lists. -/
def joinNL : List (List Char) → List Char
  | [] => []
  | [x] => x
  | x :: y :: xs => x ++ '\n' :: joinNL (y :: xs)

/-- Python `str.upper()` (ASCII). -/
def pyUpper (s : String) : String := String.mk (s.data.map Char.toUpper)

/-- Python `str.capitalize()` (ASCII). -/
def pyCapitalize (s : String) : String :=
  match s.data with
  | [] => ("")
  | c :: rest => String.mk (c.toUpper :: rest.map Char.toLower)

/-- Helper for Python `str.title()`: the flag records whether the previous
character was alphabetic. -/
def pyTitleAux : Bool → List Char → List Char
  | _, [] => []
  | prevAlpha, c :: rest =>
    if c.isAlpha then
      (if prevAlpha then c.toLower else c.toUpper) :: pyTitleAux true rest
    else c :: pyTitleAux false rest

/-- Python `str.title()` (ASCII word boundaries). -/
def pyTitle (s : String) : String := String.mk (pyTitleAux false s.data)

/-- Python `s.split(sep, 1)` restricted to a single character separator: splits at the
first occurrence, returning `none` when the separator does not occur (used for the
`"/" in name` test plus `name.split("/", 1)` in `Model.get_display_name`). -/
def splitFirst (sep : Char) : List Char → Option (List Char × List Char)
  | [] => none
  | c :: rest =>
    if c = sep then some ([], rest)
    else (splitFirst sep rest).map (fun p => (c :: p.1, p.2))

/-- Python `a or b` for an optional string `a` (used for `api_url or DEFAULT`). -/
def pyOrStr (a : Option String) (b : String) : String :=
  match a with
  | some s => if s = ("") then b else s
  | none => b

/-! Dynamic JSON values and Python exceptions -/

/-- The non-finite IEEE floats that Python's `json.loads` accepts by default, via the
literals `NaN`, `Infinity` and `-Infinity`. -/
inductive NonfiniteFloat where
  | nan : NonfiniteFloat
  | inf : NonfiniteFloat
  | negInf : NonfiniteFloat
deriving DecidableEq

/-- A decoded JSON value, as produced by Python's `json.loads` (finite numbers as
exact rationals, non-finite floats as `nonfinite`; `null` doubles as Python
`None`). -/
inductive JValue where
  | null : JValue
  | bool : Bool → JValue
  | num : Rat → JValue
  | nonfinite : NonfiniteFloat → JValue
  | str : String → JValue
  | arr : List JValue → JValue
  | obj : List (String × JValue) → JValue

/-- The Python exceptions observable from the embedded code: the repository's own
`APIError`, and the builtin exceptions its dynamic field accesses can raise. -/
inductive PyExc where
  | apiError : String → PyExc
  | keyError : String → PyExc
  | indexError : PyExc
  | typeError : PyExc
  | attributeError : String → PyExc
  | recursionError : PyExc
deriving DecidableEq

/-- Crude `str(e)` for the exceptions above (only `APIError`'s message is ever
inspected by a claim). -/
def pyExcStr : PyExc → String
  | .apiError m => m
  | .keyError k => k
  | .indexError => ("list index out of range")
  | .typeError => ("type error")
  | .attributeError a => a
  | .recursionError => ("maximum recursion depth exceeded")

/-- Python-dict insertion used while decoding a JSON object: an existing key keeps its
position and gets the new value (`json.loads` keeps the last duplicate). -/
def insertKey (fs : List (String × JValue)) (k : String) (v : JValue) :
    List (String × JValue) :=
  match fs with
  | [] => [(k, v)]
  | (k', v') :: rest => if k' = k then (k', v) :: rest else (k', v') :: insertKey rest k v

/-- Lookup in a decoded object (keys are unique after `insertKey`). -/
def objLookup (fs : List (String × JValue)) (k : String) : Option JValue :=
  match fs with
  | [] => none
  | (k', v) :: rest => if k' = k then some v else objLookup rest k

/-- Python `x.get(key, default)`: only dicts have `.get`, anything else raises
`AttributeError`. -/
def pyGet (v : JValue) (k : String) (default : JValue) : Except PyExc JValue :=
  match v with
  | .obj fs => .ok ((objLookup fs k).getD default)
  | _ => .error (.attributeError ("get"))

/-- Python `x[key]` for a string key: dict lookup (`KeyError` when absent); any
non-dict raises `TypeError`. -/
def pySubscriptKey (v : JValue) (k : String) : Except PyExc JValue :=
  match v with
  | .obj fs =>
    match objLookup fs k with
    | some x => .ok x
    | none => .error (.keyError k)
  | _ => .error .typeError

/-- Python `x[0]`: list head (`IndexError` when empty), first character of a string,
`KeyError` on a dict, `TypeError` otherwise. -/
def pyIndexZero (v : JValue) : Except PyExc JValue :=
  match v with
  | .arr [] => .error .indexError
  | .arr (x :: _) => .ok x
  | .str s =>
    match s.data with
    | [] => .error .indexError
    | c :: _ => .ok (.str (String.mk [c]))
  | .obj _ => .error (.keyError ("0"))
  | _ => .error .typeError

/-- Python `x.strip()`: only strings have `.strip`, anything else raises
`AttributeError`. -/
def pyStrStrip (v : JValue) : Except PyExc String :=
  match v with
  | .str s => .ok (pyStrip s)
  | _ => .error (.attributeError ("strip"))

/-- Python iteration `for alt in v`: lists yield elements, strings yield their
characters, dicts yield their keys; other values raise `TypeError`. -/
def pyIterList (v : JValue) : Except PyExc (List JValue) :=
  match v with
  | .arr xs => .ok xs
  | .str s => .ok (s.data.map (fun c => .str (String.mk [c])))
  | .obj fs => .ok (fs.map (fun p => JValue.str p.1))
  | _ => .error .typeError

/-- IEEE addition on the non-finite floats (`nan` absorbs; opposite infinities give
`nan`). -/
def addNonfinite : NonfiniteFloat → NonfiniteFloat → NonfiniteFloat
  | .nan, _ => .nan
  | _, .nan => .nan
  | .inf, .inf => .inf
  | .negInf, .negInf => .negInf
  | .inf, .negInf => .nan
  | .negInf, .inf => .nan

/-- Python `a + b` on decoded JSON values (numbers, including non-finite floats;
used for Anthropic token totals). -/
def pyAdd (a b : JValue) : Except PyExc JValue :=
  match a, b with
  | .num x, .num y => .ok (.num (x + y))
  | .nonfinite x, .num _ => .ok (.nonfinite x)
  | .num _, .nonfinite y => .ok (.nonfinite y)
  | .nonfinite x, .nonfinite y => .ok (.nonfinite (addNonfinite x y))
  | _, _ => .error .typeError

/-- Python truthiness of a decoded JSON value (`if not x`): `None`, `False`, zero,
empty string/list/dict are falsy; non-finite floats (including `nan`) are truthy. -/
def pyTruthy (v : JValue) : Bool :=
  match v with
  | .null => false
  | .bool b => b
  | .num q => q ≠ 0
  | .nonfinite _ => true
  | .str s => s ≠ ("")
  | .arr xs => !xs.isEmpty
  | .obj fs => !fs.isEmpty

/-! The `json.loads` model.

A recursive-descent parser for strict JSON, mirroring Python's `json.loads` on the
inputs the repository can feed it (text captured by a brace-free regex match).  The
value grammar carries a fuel argument so that the definition is structural (and hence
kernel-reducible on concrete inputs); `json_loads` supplies generous fuel, each unit of
which accompanies consuming at least one input character. -/

/-- Hexadecimal digit value, for `\uXXXX` escapes. -/
def hexVal (c : Char) : Option Nat :=
  if 48 ≤ c.toNat ∧ c.toNat ≤ 57 then some (c.toNat - 48)
  else if 97 ≤ c.toNat ∧ c.toNat ≤ 102 then some (c.toNat - 87)
  else if 65 ≤ c.toNat ∧ c.toNat ≤ 70 then some (c.toNat - 55)
  else none

/-- JSON single-character escapes. -/
def escMap (c : Char) : Option Char :=
  if c = '"' then some '"'
  else if c = '\\' then some '\\'
  else if c = '/' then some '/'
  else if c = 'b' then some (Char.ofNat 8)
  else if c = 'f' then some (Char.ofNat 12)
  else if c = 'n' then some '\n'
  else if c = 'r' then some '\r'
  else if c = 't' then some '\t'
  else none

/-- JSON whitespace (as accepted between tokens by `json.loads`). -/
def isJsonWs (c : Char) : Bool := c = ' ' || c = '\t' || c = '\n' || c = '\r'

/-- Skip inter-token whitespace. -/
def skipWs (l : List Char) : List Char := l.dropWhile isJsonWs

/-- Parse the body of a JSON string (after the opening quote), handling escapes
(surrogate pairs are not recombined; no claim depends on them). -/
def parseJString (acc : List Char) : List Char → Except String (String × List Char)
  | [] => .error ("unterminated string")
  | c :: rest =>
    if c = '"' then .ok (String.mk acc.reverse, rest)
    else if c = '\\' then
      match rest with
      | [] => .error ("truncated escape")
      | e :: rest2 =>
        if e = 'u' then
          match rest2 with
          | a :: b :: c2 :: d :: rest3 =>
            match hexVal a, hexVal b, hexVal c2, hexVal d with
            | some ha, some hb, some hc, some hd =>
              parseJString (Char.ofNat (((ha * 16 + hb) * 16 + hc) * 16 + hd) :: acc) rest3
            | _, _, _, _ => .error ("invalid hex escape")
          | _ => .error ("truncated unicode escape")
        else
          match escMap e with
          | some ch => parseJString (ch :: acc) rest2
          | none => .error ("invalid escape")
    else if c.toNat < 32 then .error ("control character in string")
    else parseJString (c :: acc) rest

/-- Digits to a natural number. -/
def digitsToNat (l : List Char) : Nat := l.foldl (fun n c => n * 10 + (c.toNat - 48)) 0

/-- Parse a JSON number (leading-zero rule as in strict JSON; exact decimal value). -/
def parseNumber (l : List Char) : Except String (Rat × List Char) :=
  let signSplit : Bool × List Char :=
    match l with
    | c :: rest => if c = '-' then (true, rest) else (false, l)
    | [] => (false, l)
  let neg := signSplit.1
  let l1 := signSplit.2
  let ds := l1.takeWhile Char.isDigit
  let l2 := l1.drop ds.length
  if ds = [] then .error ("invalid number literal")
  else if 1 < ds.length ∧ ds.head? = some '0' then .error ("leading zero")
  else
    let ipart : Rat := (digitsToNat ds : Nat)
    let fracStep : Except String (Rat × List Char) :=
      match l2 with
      | '.' :: rest =>
        let fs := rest.takeWhile Char.isDigit
        if fs = [] then .error ("missing fraction digits")
        else .ok (ipart + (digitsToNat fs : Rat) / ((10 : Rat) ^ fs.length), rest.drop fs.length)
      | _ => .ok (ipart, l2)
    match fracStep with
    | .error e => .error e
    | .ok (v, l3) =>
      match l3 with
      | c :: rest =>
        if c = 'e' ∨ c = 'E' then
          let expSplit : Bool × List Char :=
            match rest with
            | c2 :: r => if c2 = '+' then (false, r) else if c2 = '-' then (true, r) else (false, rest)
            | [] => (false, rest)
          let es := expSplit.2.takeWhile Char.isDigit
          if es = [] then .error ("missing exponent digits")
          else
            let scaled :=
              if expSplit.1 then v / (10 : Rat) ^ digitsToNat es else v * (10 : Rat) ^ digitsToNat es
            .ok (if neg then -scaled else scaled, expSplit.2.drop es.length)
        else .ok (if neg then -v else v, l3)
      | [] => .ok (if neg then -v else v, l3)

/-- Opening brace character (written via its code point throughout). -/
def lbrace : Char := Char.ofNat 123

/-- Closing brace character. -/
def rbrace : Char := Char.ofNat 125

/-- How a `json.loads` call can fail: a `json.JSONDecodeError` (which
`parse_improvement_response` catches) or a `RecursionError` from exceeding the
interpreter recursion limit on deeply nested documents (which nothing in
network.py catches). -/
inductive JsonError where
  | decodeError : String → JsonError
  | recursionError : JsonError
deriving DecidableEq

/-- Model of the interpreter recursion limit governing `json.loads` container
nesting (`sys.getrecursionlimit()`, CPython default 1000).  No claim depends on the
exact value, only on the limit's existence. -/
def jsonRecursionLimit : Nat := 1000

/-- Parser mode: a whole value, the items of an array, or the members of an object. -/
inductive PMode where
  | val : PMode
  | arrItems : List JValue → Bool → PMode
  | objItems : List (String × JValue) → Bool → PMode

/-- The fuelled JSON value parser (one function so that recursion is structural in the
fuel).  The second argument is the current container-nesting depth: entering a
container beyond `jsonRecursionLimit` raises `RecursionError`, as Python's scanner
does.  Besides strict JSON, the non-finite float literals `NaN`, `Infinity` and
`-Infinity` are accepted, as `json.loads` does by default. -/
def parseStep : Nat → Nat → PMode → List Char → Except JsonError (JValue × List Char)
  | 0, _, _, _ => .error (.decodeError ("out of fuel"))
  | fuel + 1, depth, .val, l =>
    match skipWs l with
    | [] => .error (.decodeError ("expecting value"))
    | c :: rest =>
      if c = '"' then
        match parseJString [] rest with
        | .ok (s, r) => .ok (.str s, r)
        | .error e => .error (.decodeError e)
      else if c = lbrace then
        if jsonRecursionLimit < depth + 1 then .error .recursionError
        else parseStep fuel (depth + 1) (.objItems [] true) rest
      else if c = '[' then
        if jsonRecursionLimit < depth + 1 then .error .recursionError
        else parseStep fuel (depth + 1) (.arrItems [] true) rest
      else if c = 't' then
        if ("rue").data.isPrefixOf rest then .ok (.bool true, rest.drop 3)
        else .error (.decodeError ("bad literal"))
      else if c = 'f' then
        if ("alse").data.isPrefixOf rest then .ok (.bool false, rest.drop 4)
        else .error (.decodeError ("bad literal"))
      else if c = 'n' then
        if ("ull").data.isPrefixOf rest then .ok (.null, rest.drop 3)
        else .error (.decodeError ("bad literal"))
      else if c = 'N' then
        if ("aN").data.isPrefixOf rest then .ok (.nonfinite .nan, rest.drop 2)
        else .error (.decodeError ("bad literal"))
      else if c = 'I' then
        if ("nfinity").data.isPrefixOf rest then .ok (.nonfinite .inf, rest.drop 7)
        else .error (.decodeError ("bad literal"))
      else if c = '-' then
        if ("Infinity").data.isPrefixOf rest then .ok (.nonfinite .negInf, rest.drop 8)
        else
          match parseNumber (c :: rest) with
          | .ok (q, r) => .ok (.num q, r)
          | .error e => .error (.decodeError e)
      else if c.isDigit then
        match parseNumber (c :: rest) with
        | .ok (q, r) => .ok (.num q, r)
        | .error e => .error (.decodeError e)
      else .error (.decodeError ("unexpected character"))
  | fuel + 1, depth, .arrItems acc isFirst, l =>
    match skipWs l with
    | [] => .error (.decodeError ("unterminated array"))
    | c :: rest =>
      if c = ']' ∧ isFirst then .ok (.arr [], rest)
      else
        match parseStep fuel depth .val (c :: rest) with
        | .error e => .error e
        | .ok (v, r) =>
          match skipWs r with
          | ',' :: r2 => parseStep fuel depth (.arrItems (v :: acc) false) r2
          | ']' :: r2 => .ok (.arr (v :: acc).reverse, r2)
          | _ => .error (.decodeError ("expected comma or end of array"))
  | fuel + 1, depth, .objItems acc isFirst, l =>
    match skipWs l with
    | [] => .error (.decodeError ("unterminated object"))
    | c :: rest =>
      if c = rbrace ∧ isFirst then .ok (.obj acc, rest)
      else if c = '"' then
        match parseJString [] rest with
        | .error e => .error (.decodeError e)
        | .ok (k, r) =>
          match skipWs r with
          | ':' :: r2 =>
            match parseStep fuel depth .val r2 with
            | .error e => .error e
            | .ok (v, r3) =>
              match skipWs r3 with
              | ',' :: r4 => parseStep fuel depth (.objItems (insertKey acc k v) false) r4
              | c2 :: r4 =>
                if c2 = rbrace then .ok (.obj (insertKey acc k v), r4)
                else .error (.decodeError ("expected comma or end of object"))
              | [] => .error (.decodeError ("unterminated object"))
          | _ => .error (.decodeError ("expected colon"))
      else .error (.decodeError ("expected property name"))

/-- Python `json.loads`: parse one value (starting at nesting depth 0) and require
only whitespace after it.  Fuel is generous: the parser spends at most a few units
per consumed character. -/
def json_loads (s : String) : Except JsonError JValue :=
  match parseStep (4 * s.length + 8) 0 .val s.data with
  | .error e => .error e
  | .ok (v, rest) => if skipWs rest = [] then .ok v else .error (.decodeError ("extra data"))

/-! The embedded-JSON extraction regex.

network.py line 543 scans `response_text` with the pattern
`\x7b[^\x7b\x7d]*"improved"[^\x7b\x7d]*\x7d` (braces written as code points here): the
leftmost match starts at the first opening brace whose following brace-free run
contains the quoted key `"improved"` and is terminated by a closing brace.  The match
is exactly that brace-delimited span. -/

/-- Maximal brace-free prefix (what `[^...]*` can traverse). -/
def braceFree (l : List Char) : List Char :=
  l.takeWhile (fun c => ¬(c = lbrace ∨ c = rbrace))

/-- Substring containment on character lists. -/
def containsSub (needle : List Char) : List Char → Bool
  | [] => needle.isEmpty
  | c :: rest => needle.isPrefixOf (c :: rest) || containsSub needle rest

/-- The quoted key the regex requires inside the braces. -/
def quotedImproved : List Char := ("\"improved\"").data

/-- The result of `re.search` with the embedded-JSON pattern: the whole matched span
(group 0), or `none` when the pattern does not occur. -/
def findJsonMatch : List Char → Option (List Char)
  | [] => none
  | c :: rest =>
    if c = lbrace then
      let r := braceFree rest
      match rest.drop r.length with
      | c2 :: _ =>
        if c2 = rbrace ∧ containsSub quotedImproved r then some (lbrace :: (r ++ [rbrace]))
        else findJsonMatch rest
      | [] => findJsonMatch rest
    else findJsonMatch rest

/-! Targets (src/models.py) -/

/-- A configured model row (src/models.py, class `Model`). -/
structure Model where
  id : Int
  name : String
  api_url : Option String
  api_id : String
  is_active : Bool
  model_type : String
  created_at : String
deriving DecidableEq

/-- `get_api_key` (src/models.py lines 158-171): read the environment variable; a set
but empty value is falsy, otherwise the value is stripped.  `env` stands for
`os.getenv("OPENROUTER_API_KEY")`. -/
def get_api_key (env : Option String) : Option String :=
  match env with
  | some s => if s = ("") then none else some (pyStrip s)
  | none => none

/-- `Model.get_display_name` (src/models.py lines 32-66). -/
def Model.get_display_name (m : Model) : String :=
  match splitFirst '/' m.name.data with
  | none => m.name
  | some (_, restChars) =>
    let model_name := String.mk restChars
    if model_name.startsWith ("gpt") then
      let parts := (model_name.replace ("gpt-") ("")).splitOn ("-")
      match parts with
      | [p] => ("GPT-") ++ p
      | p :: restParts =>
        ("GPT-") ++ pyUpper p ++ (" ") ++ String.intercalate (" ") (restParts.map pyCapitalize)
      | [] => ("GPT-")
    else if model_name.startsWith ("claude") then
      ("Claude ") ++ pyTitle ((model_name.replace ("claude-") ("")).replace ("-") (" "))
    else if model_name.startsWith ("gemini") then pyTitle (model_name.replace ("-") (" "))
    else if model_name.startsWith ("deepseek") then pyTitle (model_name.replace ("-") (" "))
    else if model_name.startsWith ("llama") then pyTitle (model_name.replace ("-") (" "))
    else pyTitle (model_name.replace ("-") (" "))

/-! The HTTP boundary (src/network.py adapters) -/

/-- `REQUEST_TIMEOUT` (src/config.py line 18). -/
def REQUEST_TIMEOUT : Nat := 60

/-- How a request authenticates: `Authorization: Bearer ...` (OpenAI/OpenRouter style)
or the Anthropic `x-api-key` header. -/
inductive AuthHeader where
  | bearer : String → AuthHeader
  | xApiKey : String → AuthHeader
deriving DecidableEq

/-- A chat message (`{"role": ..., "content": ...}`). -/
structure Message where
  role : String
  content : String
deriving DecidableEq

/-- The JSON payload a provider adapter posts: the OpenAI/OpenRouter chat shape
`model` / `messages` / `temperature`, or the Anthropic shape
`model` / `max_tokens` / `messages`. -/
inductive RequestBody where
  | chat : String → List Message → Rat → RequestBody
  | anthropicMsg : String → Nat → List Message → RequestBody
deriving DecidableEq

/-- One HTTP POST as issued by an adapter. -/
structure HttpRequest where
  url : String
  auth : AuthHeader
  body : RequestBody
  timeoutSeconds : Nat
deriving DecidableEq

/-- What the abstract transport does with a request: a `requests`-level failure
(connection error, timeout), or an HTTP response with a status code and a body
(`none` = body that is not valid JSON, so that `response.json()` raises). -/
inductive PostOutcome where
  | transportError : String → PostOutcome
  | response : Nat → Option JValue → PostOutcome

/-- The dictionary `send_openrouter_request` returns on success
(src/network.py lines 160-164). -/
structure SendResultDict where
  text : JValue
  tokens_used : JValue
  raw_response : JValue

/-- Extraction of `data["choices"][0]["message"]["content"]` and
`data.get("usage", \x7b\x7d).get("total_tokens")` (src/network.py lines 156-164);
each dynamic access can raise. -/
def extract_chat_result (data : JValue) : Except PyExc SendResultDict := do
  let choices ← pySubscriptKey data ("choices")
  let c0 ← pyIndexZero choices
  let msg ← pySubscriptKey c0 ("message")
  let content ← pySubscriptKey msg ("content")
  let usage ← pyGet data ("usage") (.obj [])
  let tokens ← pyGet usage ("total_tokens") .null
  .ok ⟨content, tokens, data⟩

/-- Default OpenRouter endpoint (src/network.py line 134). -/
def openrouterDefaultURL : String := "https://openrouter.ai/api/v1/chat/completions"

/-- The request `send_openrouter_request` builds (src/network.py lines 134-149);
the auxiliary `HTTP-Referer` / `X-Title` headers are not modelled. -/
def openrouterRequest (api_key model_name prompt : String) (api_url : Option String) :
    HttpRequest :=
  { url := pyOrStr api_url openrouterDefaultURL
    auth := .bearer api_key
    body := .chat model_name [⟨("user"), prompt⟩] ((7 : Rat) / 10)
    timeoutSeconds := REQUEST_TIMEOUT }

/-- Approximation of the message of the `requests` exception raised by
`raise_for_status` (its exact text is never inspected). -/
def httpStatusMsg (status : Nat) (url : String) : String :=
  toString status ++ (" Error for url: ") ++ url

/-- `send_openrouter_request` (src/network.py lines 121-167).  `requests`-level
failures — transport errors, non-2xx statuses via `raise_for_status`, and
non-JSON bodies via `response.json()` — are caught and re-raised as `APIError`;
exceptions from the dynamic field extraction are NOT caught and escape raw.
Returns the outcome together with the list of HTTP requests issued. -/
def send_openrouter_request (post : HttpRequest → PostOutcome)
    (api_key model_name prompt : String) (api_url : Option String) :
    Except PyExc SendResultDict × List HttpRequest :=
  let req := openrouterRequest api_key model_name prompt api_url
  match post req with
  | .transportError msg =>
    (.error (.apiError (("Ошибка запроса к API: ") ++ msg)), [req])
  | .response status body =>
    if 400 ≤ status then
      (.error (.apiError (("Ошибка запроса к API: ") ++ httpStatusMsg status req.url)), [req])
    else
      match body with
      | none => (.error (.apiError (("Ошибка запроса к API: ") ++ ("Expecting value"))), [req])
      | some data => (extract_chat_result data, [req])

/-- Default Anthropic endpoint (src/network.py line 182). -/
def anthropicDefaultURL : String := "https://api.anthropic.com/v1/messages"

/-- Extraction of `data["content"][0]["text"]` and the summed token usage
(src/network.py lines 204-211). -/
def extract_anthropic_result (data : JValue) : Except PyExc SendResultDict := do
  let contentArr ← pySubscriptKey data ("content")
  let c0 ← pyIndexZero contentArr
  let text ← pySubscriptKey c0 ("text")
  let usage ← pyGet data ("usage") (.obj [])
  let inTok ← pyGet usage ("input_tokens") (.num 0)
  let outTok ← pyGet usage ("output_tokens") (.num 0)
  let total ← pyAdd inTok outTok
  .ok ⟨text, total, data⟩

/-- `send_anthropic_request` (src/network.py lines 170-214): the Anthropic-native wire
format.  Present in the source but, as the dispatch-path claims show, never reached
from `send_prompt_to_model`. -/
def send_anthropic_request (post : HttpRequest → PostOutcome)
    (api_key prompt : String) (api_url : Option String) :
    Except PyExc SendResultDict × List HttpRequest :=
  let req : HttpRequest :=
    { url := pyOrStr api_url anthropicDefaultURL
      auth := .xApiKey api_key
      body := .anthropicMsg ("claude-3-5-sonnet-20241022") 4096 [⟨("user"), prompt⟩]
      timeoutSeconds := REQUEST_TIMEOUT }
  match post req with
  | .transportError msg =>
    (.error (.apiError (("Ошибка запроса к API: ") ++ msg)), [req])
  | .response status body =>
    if 400 ≤ status then
      (.error (.apiError (("Ошибка запроса к API: ") ++ httpStatusMsg status req.url)), [req])
    else
      match body with
      | none => (.error (.apiError (("Ошибка запроса к API: ") ++ ("Expecting value"))), [req])
      | some data => (extract_anthropic_result data, [req])

/-! The dispatcher (src/network.py lines 24-335) -/

/-- `APIResponse` (src/network.py lines 24-36): one per-target dispatch outcome. -/
structure APIResponse where
  model_id : Int
  model_name : String
  response_text : JValue
  tokens_used : JValue
  response_time : Rat
  error : Option String
  success : Bool

/-- The `APIResponse.__init__` constructor: `success` is derived as `error is None`
at construction time. -/
def APIResponse.init (model_id : Int) (model_name : String) (response_text : JValue)
    (tokens_used : JValue) (response_time : Rat) (error : Option String) : APIResponse :=
  { model_id, model_name, response_text, tokens_used, response_time, error
    success := error.isNone }

/-- The credential-missing message (src/network.py line 234). -/
def credMissingMsg : String := "API ключ OPENROUTER_API_KEY не найден. Проверьте файл .env"

/-- `send_prompt_to_model` (src/network.py lines 217-281).  `env` is the
`OPENROUTER_API_KEY` environment variable, `post` the abstract transport, and
`elapsedTime` the wall-clock duration measured around the network call.  Every model,
whatever its `model_type`, is sent through `send_openrouter_request`.  Returns the
outcome and the trace of HTTP requests issued. -/
def send_prompt_to_model (env : Option String) (post : HttpRequest → PostOutcome)
    (elapsedTime : Rat) (model : Model) (prompt : String) :
    APIResponse × List HttpRequest :=
  match get_api_key env with
  | none =>
    (APIResponse.init model.id model.get_display_name (.str ("")) .null 0 (some credMissingMsg), [])
  | some k =>
    if k = ("") then
      (APIResponse.init model.id model.get_display_name (.str ("")) .null 0 (some credMissingMsg), [])
    else
      match send_openrouter_request post k model.name prompt model.api_url with
      | (.ok r, reqs) =>
        (APIResponse.init model.id model.get_display_name r.text r.tokens_used elapsedTime none,
         reqs)
      | (.error (.apiError m), reqs) =>
        (APIResponse.init model.id model.get_display_name (.str ("")) .null elapsedTime (some m),
         reqs)
      | (.error e, reqs) =>
        (APIResponse.init model.id model.get_display_name (.str ("")) .null elapsedTime
          (some (("Неожиданная ошибка: ") ++ pyExcStr e)), reqs)

/-- `send_prompts_parallel` (src/network.py lines 284-335).  One worker thread per
model computes `send_prompt_to_model`; each appends its outcome to the shared list and
reports `(len(results), len(models))` under a single mutex.  The linearised completion
order of the critical sections is the parameter `order` — any permutation of `models`.
The progress callback is modelled as always supplied and non-raising.  Returns the
outcome list (in completion order), the list of progress-callback invocations
`(completed, total)` (in call order), and the concatenated HTTP request trace. -/
def send_prompts_parallel (env : Option String) (post : HttpRequest → PostOutcome)
    (elapsed : Model → Rat) (models : List Model) (prompt : String) (order : List Model) :
    List APIResponse × List (Nat × Nat) × List HttpRequest :=
  (order.map (fun m => (send_prompt_to_model env post (elapsed m) m prompt).1),
   (List.range order.length).map (fun k => (k + 1, models.length)),
   (order.map (fun m => (send_prompt_to_model env post (elapsed m) m prompt).2)).flatten)

/-! The structured-response parser (src/network.py lines 340-617) -/

/-- `PromptImprovementResult` (src/network.py lines 340-358). -/
structure PromptImprovementResult where
  original_prompt : String
  improved_prompt : String
  alternatives : List String
  code_version : Option String
  analysis_version : Option String
  creative_version : Option String
  model_name : String
  error : Option String
  success : Bool
deriving DecidableEq

/-- The `PromptImprovementResult.__init__` constructor: `alternatives or []`, and
`success` derived as `error is None` at construction time only — later attribute
assignments do not update it. -/
def PromptImprovementResult.init (original_prompt improved_prompt : String)
    (alternatives : Option (List String))
    (code_version analysis_version creative_version : Option String)
    (model_name : String) (error : Option String) : PromptImprovementResult :=
  { original_prompt, improved_prompt, alternatives := alternatives.getD []
    code_version, analysis_version, creative_version, model_name, error
    success := error.isNone }

/-- Python `s or None` on a string (used for the three `_version` fields in the JSON
layer). -/
def strOrNone (s : String) : Option String := if s = ("") then none else some s

/-- The list comprehension `[alt.strip() for alt in xs if alt.strip()]`: strip each
element (raising on non-strings) and keep the non-empty results in order. -/
def stripKeepNonempty : List JValue → Except PyExc (List String)
  | [] => .ok []
  | v :: rest => do
    let s ← pyStrStrip v
    let tail ← stripKeepNonempty rest
    .ok (if s = ("") then tail else s :: tail)

/-- The fields the JSON layer assigns (src/network.py lines 549-553). -/
structure JsonFields where
  improved : String
  alternatives : List String
  code_version : Option String
  analysis_version : Option String
  creative_version : Option String
deriving DecidableEq

/-- The JSON layer's field extraction (src/network.py lines 549-553), performed on the
decoded object: `data.get("improved", "").strip()`,
`[alt.strip() for alt in data.get("alternatives", []) if alt.strip()]` — note: NOT
truncated to three — and `data.get("..._version", "").strip() or None` for the three
variants.  Each `.strip()` on a non-string and any non-iterable `alternatives` raises,
and nothing catches these exceptions. -/
def extract_json_fields (data : JValue) : Except PyExc JsonFields := do
  let impRaw ← pyGet data ("improved") (.str (""))
  let improved ← pyStrStrip impRaw
  let altsRaw ← pyGet data ("alternatives") (.arr [])
  let altElems ← pyIterList altsRaw
  let alternatives ← stripKeepNonempty altElems
  let codeRaw ← pyGet data ("code_version") (.str (""))
  let code ← pyStrStrip codeRaw
  let analysisRaw ← pyGet data ("analysis_version") (.str (""))
  let analysis ← pyStrStrip analysisRaw
  let creativeRaw ← pyGet data ("creative_version") (.str (""))
  let creative ← pyStrStrip creativeRaw
  .ok ⟨improved, alternatives, strOrNone code, strOrNone analysis, strOrNone creative⟩

/-- Abstract oracles for the free-text regular expressions of the text-parsing layer
(src/network.py lines 562-611): for each field, the (group 1 of the) first matching
pattern, or `none` when no pattern matches; `altSplit` is the list-item split
`re.split` applied to the captured alternatives block.  The claims proved below hold
for every behaviour of these oracles. -/
structure ParseOracles where
  improvedSearch : String → Option String
  altSearch : String → Option String
  altSplit : String → List String
  codeSearch : String → Option String
  analysisSearch : String → Option String
  creativeSearch : String → Option String

/-- Oracles under which no free-text pattern matches (and `re.split` returns the
uncut block, as it does when no separator occurs). -/
def noMatchOracles : ParseOracles :=
  ⟨fun _ => none, fun _ => none, fun s => [s], fun _ => none, fun _ => none, fun _ => none⟩

/-- The non-blank stripped lines of the raw text (src/network.py line 576). -/
def fallbackLines (text : String) : List (List Char) :=
  ((splitNL text.data).map pyStripL).filter (fun l => l ≠ [])

/-- Stage 1 of the text layer (src/network.py lines 562-572): the first matching
improved-version pattern, stripped. -/
def ptfStage1 (o : ParseOracles) (text : String) (r : PromptImprovementResult) :
    PromptImprovementResult :=
  match o.improvedSearch text with
  | some g => { r with improved_prompt := pyStrip g }
  | none => r

/-- Stage 2 of the text layer (src/network.py lines 575-579): when no improved version
was found, take the first five non-blank stripped lines. -/
def ptfStage2 (text : String) (r : PromptImprovementResult) : PromptImprovementResult :=
  if r.improved_prompt = ("") then
    let lines := fallbackLines text
    if lines ≠ [] then
      { r with improved_prompt := String.mk (joinNL (lines.take 5)) }
    else r
  else r

/-- Stage 3 of the text layer (src/network.py lines 582-595): alternatives block split
into at most three non-empty items. -/
def ptfStage3 (o : ParseOracles) (text : String) (r : PromptImprovementResult) :
    PromptImprovementResult :=
  match o.altSearch text with
  | some g =>
    { r with alternatives :=
        (((o.altSplit (pyStrip g)).map pyStrip).filter (fun s => s ≠ (""))).take 3 }
  | none => r

/-- Stage 4 of the text layer (src/network.py lines 598-601): the code variant. -/
def ptfStage4 (o : ParseOracles) (text : String) (r : PromptImprovementResult) :
    PromptImprovementResult :=
  match o.codeSearch text with
  | some g => { r with code_version := some (pyStrip g) }
  | none => r

/-- Stage 5 of the text layer (src/network.py lines 603-606): the analysis variant. -/
def ptfStage5 (o : ParseOracles) (text : String) (r : PromptImprovementResult) :
    PromptImprovementResult :=
  match o.analysisSearch text with
  | some g => { r with analysis_version := some (pyStrip g) }
  | none => r

/-- Stage 6 of the text layer (src/network.py lines 608-611): the creative variant. -/
def ptfStage6 (o : ParseOracles) (text : String) (r : PromptImprovementResult) :
    PromptImprovementResult :=
  match o.creativeSearch text with
  | some g => { r with creative_version := some (pyStrip g) }
  | none => r

/-- Final validation of the text layer (src/network.py lines 614-615): post-assign the
error when no improved version was extracted (note: `success` is not updated). -/
def ptfFinal (r : PromptImprovementResult) : PromptImprovementResult :=
  if r.improved_prompt = ("") then
    { r with error := some ("Не удалось извлечь улучшенную версию промта из ответа модели") }
  else r

/-- The text-parsing layer of `parse_improvement_response`
(src/network.py lines 560-617), entered when the JSON layer produced no non-empty
`improved_prompt`: the six stages above, in source order. -/
def parse_text_fallback (o : ParseOracles) (text : String)
    (result0 : PromptImprovementResult) : PromptImprovementResult :=
  ptfFinal (ptfStage6 o text (ptfStage5 o text (ptfStage4 o text
    (ptfStage3 o text (ptfStage2 text (ptfStage1 o text result0))))))

/-- `parse_improvement_response` (src/network.py lines 520-617).  Blank input returns
the empty-response error immediately (by post-construction assignment, so `success`
stays `true`); otherwise the JSON layer runs (its dynamic-typing exceptions escape as
`.error`), returning early only when it found a non-empty improved prompt; otherwise
the text layer runs.  A `json.JSONDecodeError` from `json.loads` is caught and falls
through to the text layer; a `RecursionError` from `json.loads` on a deeply nested
document is NOT caught and escapes. -/
def parse_improvement_response (o : ParseOracles)
    (response_text original_prompt model_name : String) :
    Except PyExc PromptImprovementResult :=
  let result := PromptImprovementResult.init original_prompt ("") none none none none
    model_name none
  if response_text = ("") ∨ pyStrip response_text = ("") then
    .ok { result with error := some ("Пустой ответ от модели") }
  else
    match findJsonMatch response_text.data with
    | some jchars =>
      match json_loads (String.mk jchars) with
      | .ok data =>
        match extract_json_fields data with
        | .error e => .error e
        | .ok f =>
          let result := { result with
            improved_prompt := f.improved
            alternatives := f.alternatives
            code_version := f.code_version
            analysis_version := f.analysis_version
            creative_version := f.creative_version }
          if f.improved ≠ ("") then .ok result
          else .ok (parse_text_fallback o response_text result)
      | .error (.decodeError _) => .ok (parse_text_fallback o response_text result)
      | .error .recursionError => .error .recursionError
    | none => .ok (parse_text_fallback o response_text result)

/-! Prompt improvement (src/network.py lines 361-517) -/

/-- `create_improvement_prompt` (src/network.py lines 361-408): the meta-prompt sent
to the model (braces of the JSON template written via `\x7b`/`\x7d`). -/
def create_improvement_prompt (original_prompt : String) (include_adaptations : Bool) :
    String :=
  let base :=
    ("Ты эксперт по созданию и оптимизации промптов для AI-моделей. Твоя задача - улучшить следующий промт, сделав его более четким, эффективным и результативным.\n\nИсходный промт:\n\"")
    ++ original_prompt ++
    ("\"\n\nПожалуйста, предоставь улучшенную версию промта и выполни следующие задачи:\n\n1. Улучшенная версия: Создай оптимизированную версию промта, которая:\n   - Более четко формулирует задачу\n   - Включает важные детали и контекст\n   - Использует эффективные техники промптинга\n   - Сохраняет исходный смысл и цель\n\n2. Альтернативные варианты: Предоставь 2-3 альтернативных варианта переформулировки, каждый с разным подходом или акцентом.\n\n3. Адаптированные версии (если применимо):")
  let base :=
    if include_adaptations then
      base ++ ("\n   - Версия для задач программирования: Адаптируй промт для работы с кодом, отладкой, рефакторингом\n   - Версия для аналитических задач: Адаптируй промт для анализа данных, исследований, сравнений\n   - Версия для креативных задач: Адаптируй промт для творческих задач, генерации идей, контента")
    else base
  base ++ ("\n\nФормат ответа (используй JSON для структурированного ответа):\n\x7b\n  \"improved\": \"улучшенная версия промта\",\n  \"alternatives\": [\"вариант 1\", \"вариант 2\", \"вариант 3\"],\n  \"code_version\": \"версия для программирования (если применимо)\",\n  \"analysis_version\": \"версия для анализа (если применимо)\",\n  \"creative_version\": \"версия для креатива (если применимо)\"\n\x7d\n\nЕсли JSON формат недоступен, используй структурированный текст с четкими разделами.")

/-- Side-effect counters for `improve_prompt_via_model`: credential lookups performed,
HTTP requests issued, and invocations of the parser. -/
structure ImproveTrace where
  credentialLookups : Nat
  requests : List HttpRequest
  parserCalls : Nat
deriving DecidableEq

/-- `improve_prompt_via_model` (src/network.py lines 459-517).  A blank original
prompt is rejected before any credential lookup, network call, or parse.  `APIError`
from the request and any exception escaping the parser are caught and converted into
an error result (the function itself never raises).  When the extracted content is
not a string, the parser's own first line decides: a truthy non-string raises
`AttributeError` at `.strip()` (caught here), while a falsy one (`None`, `0`, `[]`,
...) takes the parser's blank-input path and its empty-response error result. -/
def improve_prompt_via_model (env : Option String) (post : HttpRequest → PostOutcome)
    (o : ParseOracles) (model : Model) (original_prompt : String)
    (include_adaptations : Bool) : PromptImprovementResult × ImproveTrace :=
  if original_prompt = ("") ∨ pyStrip original_prompt = ("") then
    (PromptImprovementResult.init original_prompt ("") none none none none
      model.get_display_name (some ("Исходный промт пуст")), ⟨0, [], 0⟩)
  else
    let improvement_prompt := create_improvement_prompt original_prompt include_adaptations
    match get_api_key env with
    | none =>
      (PromptImprovementResult.init original_prompt ("") none none none none
        model.get_display_name (some credMissingMsg), ⟨1, [], 0⟩)
    | some k =>
      if k = ("") then
        (PromptImprovementResult.init original_prompt ("") none none none none
          model.get_display_name (some credMissingMsg), ⟨1, [], 0⟩)
      else
        match send_openrouter_request post k model.name improvement_prompt model.api_url with
        | (.ok r, reqs) =>
          match r.text with
          | .str s =>
            match parse_improvement_response o s original_prompt model.get_display_name with
            | .ok pr => (pr, ⟨1, reqs, 1⟩)
            | .error e =>
              (PromptImprovementResult.init original_prompt ("") none none none none
                model.get_display_name (some (("Неожиданная ошибка: ") ++ pyExcStr e)),
               ⟨1, reqs, 1⟩)
          | v =>
            if pyTruthy v then
              (PromptImprovementResult.init original_prompt ("") none none none none
                model.get_display_name
                (some (("Неожиданная ошибка: ") ++ pyExcStr (.attributeError ("strip")))),
               ⟨1, reqs, 1⟩)
            else
              ({ original_prompt, improved_prompt := ("")
                 alternatives := [], code_version := none, analysis_version := none
                 creative_version := none, model_name := model.get_display_name
                 error := some ("Пустой ответ от модели"), success := true },
               ⟨1, reqs, 1⟩)
        | (.error (.apiError m), reqs) =>
          (PromptImprovementResult.init original_prompt ("") none none none none
            model.get_display_name (some (("Ошибка API: ") ++ m)), ⟨1, reqs, 0⟩)
        | (.error e, reqs) =>
          (PromptImprovementResult.init original_prompt ("") none none none none
            model.get_display_name (some (("Неожиданная ошибка: ") ++ pyExcStr e)),
           ⟨1, reqs, 0⟩)

/-! Helper lemmas -/

theorem strMk_eq_empty (l : List Char) : (String.mk l = ("")) ↔ l = [] := by
  constructor
  · intro h
    exact congrArg String.data h
  · intro h
    subst h
    rfl

theorem pyStrip_eq_empty (s : String) : pyStrip s = ("") ↔ pyStripL s.data = [] := by
  unfold pyStrip
  exact strMk_eq_empty _

theorem pyStripL_eq_nil (l : List Char) :
    pyStripL l = [] ↔ ∀ c ∈ l, isPySpace c = true := by
  unfold pyStripL
  constructor
  · intro h c hc
    rw [List.reverse_eq_nil_iff, List.dropWhile_eq_nil_iff] at h
    by_cases hcw : c ∈ l.dropWhile isPySpace
    · exact h c (List.mem_reverse.mpr hcw)
    · have hsplit := List.takeWhile_append_dropWhile isPySpace l
      have hc' : c ∈ l.takeWhile isPySpace ++ l.dropWhile isPySpace := by
        rw [hsplit]; exact hc
      rcases List.mem_append.mp hc' with h' | h'
      · exact List.mem_takeWhile_imp h'
      · exact absurd h' hcw
  · intro h
    have hd : l.dropWhile isPySpace = [] :=
      List.dropWhile_eq_nil_iff.mpr (fun c hc => h c hc)
    simp [hd]

theorem splitNL_ne_nil (l : List Char) : splitNL l ≠ [] := by
  induction l with
  | nil => simp [splitNL]
  | cons c rest ih =>
    by_cases h : c = '\n'
    · simp [splitNL, h]
    · simp only [splitNL, if_neg h]
      cases hs : splitNL rest with
      | nil => simp
      | cons a as => simp

theorem splitNL_witness (l : List Char) (hc : ∃ c ∈ l, isPySpace c = false) :
    ∃ piece ∈ splitNL l, ∃ c ∈ piece, isPySpace c = false := by
  induction l with
  | nil => simp at hc
  | cons c rest ih =>
    obtain ⟨c0, hmem, hns⟩ := hc
    rcases List.mem_cons.mp hmem with rfl | hmem'
    · have hnl : ¬ c0 = '\n' := by
        intro h; subst h; exact absurd hns (by decide)
      simp only [splitNL, if_neg hnl]
      cases hs : splitNL rest with
      | nil => exact absurd hs (splitNL_ne_nil rest)
      | cons a as =>
        exact ⟨c0 :: a, List.mem_cons_self _ _, c0, List.mem_cons_self _ _, hns⟩
    · have hrest : ∃ c ∈ rest, isPySpace c = false := ⟨c0, hmem', hns⟩
      obtain ⟨piece, hp, hw⟩ := ih hrest
      by_cases hnl : c = '\n'
      · subst hnl
        simp only [splitNL, if_pos rfl]
        exact ⟨piece, List.mem_cons_of_mem _ hp, hw⟩
      · simp only [splitNL, if_neg hnl]
        cases hs : splitNL rest with
        | nil => exact absurd hs (splitNL_ne_nil rest)
        | cons a as =>
          rw [hs] at hp
          rcases List.mem_cons.mp hp with rfl | hp'
          · obtain ⟨c1, hc1, hw1⟩ := hw
            exact ⟨c :: piece, List.mem_cons_self _ _, c1, List.mem_cons_of_mem _ hc1, hw1⟩
          · exact ⟨piece, List.mem_cons_of_mem _ hp', hw⟩

theorem fallbackLines_ne_nil (text : String) (h : pyStripL text.data ≠ []) :
    fallbackLines text ≠ [] := by
  have hns : ∃ c ∈ text.data, isPySpace c = false := by
    by_contra hcon
    push_neg at hcon
    apply h
    rw [pyStripL_eq_nil]
    intro c hc
    have := hcon c hc
    revert this
    cases isPySpace c <;> simp
  obtain ⟨piece, hp, hw⟩ := splitNL_witness text.data hns
  have hpe : pyStripL piece ≠ [] := by
    intro hnil
    have hall := (pyStripL_eq_nil piece).mp hnil
    obtain ⟨c, hc, hcf⟩ := hw
    rw [hall c hc] at hcf
    cases hcf
  have hmem : pyStripL piece ∈ fallbackLines text := by
    unfold fallbackLines
    rw [List.mem_filter]
    refine ⟨List.mem_map.mpr ⟨piece, hp, rfl⟩, ?_⟩
    simpa using hpe
  intro hnil
  rw [hnil] at hmem
  exact (List.not_mem_nil _) hmem

theorem mem_fallbackLines_ne_nil (text : String) (l : List Char)
    (h : l ∈ fallbackLines text) : l ≠ [] := by
  unfold fallbackLines at h
  have := (List.mem_filter.mp h).2
  simpa using this

theorem joinNL_ne_nil (x : List Char) (xs : List (List Char)) (hx : x ≠ []) :
    joinNL (x :: xs) ≠ [] := by
  cases xs with
  | nil => simpa [joinNL] using hx
  | cons y ys =>
    simp only [joinNL]
    intro h
    rcases List.append_eq_nil.mp h with ⟨_, h2⟩
    cases h2

theorem findJsonMatch_all_space (l : List Char) (h : ∀ c ∈ l, isPySpace c = true) :
    findJsonMatch l = none := by
  induction l with
  | nil => rfl
  | cons c rest ih =>
    have hc : isPySpace c = true := h c (List.mem_cons_self c rest)
    have hcb : ¬ c = lbrace := by
      intro hh; subst hh; exact absurd hc (by decide)
    simp only [findJsonMatch, if_neg hcb]
    exact ih (fun x hx => h x (List.mem_cons_of_mem c hx))

theorem ptfStage1_preserve (o : ParseOracles) (text : String)
    (r : PromptImprovementResult) :
    (ptfStage1 o text r).error = r.error ∧ (ptfStage1 o text r).success = r.success := by
  unfold ptfStage1
  split <;> exact ⟨rfl, rfl⟩

theorem ptfStage2_preserve (text : String) (r : PromptImprovementResult) :
    (ptfStage2 text r).error = r.error ∧ (ptfStage2 text r).success = r.success := by
  simp only [ptfStage2]
  split_ifs <;> exact ⟨rfl, rfl⟩

theorem ptfStage2_improved (text : String) (r : PromptImprovementResult)
    (hb : pyStripL text.data ≠ []) : (ptfStage2 text r).improved_prompt ≠ ("") := by
  simp only [ptfStage2]
  by_cases h : r.improved_prompt = ("")
  · rw [if_pos h]
    have hl := fallbackLines_ne_nil text hb
    rw [if_pos hl]
    show String.mk (joinNL ((fallbackLines text).take 5)) ≠ ("")
    cases hfl : fallbackLines text with
    | nil => exact absurd hfl hl
    | cons x xs =>
      have hx : x ≠ [] :=
        mem_fallbackLines_ne_nil text x (by rw [hfl]; exact List.mem_cons_self x xs)
      intro hcon
      exact joinNL_ne_nil x (xs.take 4) hx ((strMk_eq_empty _).mp hcon)
  · rw [if_neg h]
    exact h

theorem ptfStage3_preserve (o : ParseOracles) (text : String)
    (r : PromptImprovementResult) :
    (ptfStage3 o text r).improved_prompt = r.improved_prompt ∧
    (ptfStage3 o text r).error = r.error ∧ (ptfStage3 o text r).success = r.success := by
  unfold ptfStage3
  split <;> exact ⟨rfl, rfl, rfl⟩

theorem ptfStage4_preserve (o : ParseOracles) (text : String)
    (r : PromptImprovementResult) :
    (ptfStage4 o text r).improved_prompt = r.improved_prompt ∧
    (ptfStage4 o text r).error = r.error ∧ (ptfStage4 o text r).success = r.success := by
  unfold ptfStage4
  split <;> exact ⟨rfl, rfl, rfl⟩

theorem ptfStage5_preserve (o : ParseOracles) (text : String)
    (r : PromptImprovementResult) :
    (ptfStage5 o text r).improved_prompt = r.improved_prompt ∧
    (ptfStage5 o text r).error = r.error ∧ (ptfStage5 o text r).success = r.success := by
  unfold ptfStage5
  split <;> exact ⟨rfl, rfl, rfl⟩

theorem ptfStage6_preserve (o : ParseOracles) (text : String)
    (r : PromptImprovementResult) :
    (ptfStage6 o text r).improved_prompt = r.improved_prompt ∧
    (ptfStage6 o text r).error = r.error ∧ (ptfStage6 o text r).success = r.success := by
  unfold ptfStage6
  split <;> exact ⟨rfl, rfl, rfl⟩

theorem ptfFinal_of_ne (r : PromptImprovementResult) (h : r.improved_prompt ≠ ("")) :
    ptfFinal r = r := by
  unfold ptfFinal
  rw [if_neg h]

theorem parse_text_fallback_spec (o : ParseOracles) (text : String)
    (r0 : PromptImprovementResult) (hb : pyStripL text.data ≠ []) :
    (parse_text_fallback o text r0).improved_prompt ≠ ("") ∧
    (parse_text_fallback o text r0).error = r0.error ∧
    (parse_text_fallback o text r0).success = r0.success := by
  unfold parse_text_fallback
  have h2i := ptfStage2_improved text (ptfStage1 o text r0) hb
  have h3 := ptfStage3_preserve o text (ptfStage2 text (ptfStage1 o text r0))
  have h4 := ptfStage4_preserve o text (ptfStage3 o text (ptfStage2 text (ptfStage1 o text r0)))
  have h5 := ptfStage5_preserve o text
    (ptfStage4 o text (ptfStage3 o text (ptfStage2 text (ptfStage1 o text r0))))
  have h6 := ptfStage6_preserve o text
    (ptfStage5 o text (ptfStage4 o text (ptfStage3 o text (ptfStage2 text (ptfStage1 o text r0)))))
  have h6i : (ptfStage6 o text (ptfStage5 o text (ptfStage4 o text
      (ptfStage3 o text (ptfStage2 text (ptfStage1 o text r0)))))).improved_prompt ≠ ("") := by
    rw [h6.1, h5.1, h4.1, h3.1]
    exact h2i
  rw [ptfFinal_of_ne _ h6i]
  refine ⟨h6i, ?_, ?_⟩
  · rw [h6.2.1, h5.2.1, h4.2.1, h3.2.1, (ptfStage2_preserve text _).1,
      (ptfStage1_preserve o text r0).1]
  · rw [h6.2.2, h5.2.2, h4.2.2, h3.2.2, (ptfStage2_preserve text _).2,
      (ptfStage1_preserve o text r0).2]

theorem parse_result_spec (o : ParseOracles) (raw orig name : String)
    (r : PromptImprovementResult)
    (h : parse_improvement_response o raw orig name = .ok r) :
    (r.improved_prompt = ("") ↔ pyStrip raw = ("")) ∧
    (r.error.isSome = true ↔ pyStrip raw = ("")) ∧
    r.success = true := by
  unfold parse_improvement_response at h
  by_cases hb : raw = ("") ∨ pyStrip raw = ("")
  · rw [if_pos hb] at h
    have hr := Except.ok.inj h
    subst hr
    have hblank : pyStrip raw = ("") := by
      rcases hb with hb | hb
      · subst hb; rfl
      · exact hb
    refine ⟨?_, ?_, rfl⟩
    · simp [PromptImprovementResult.init, hblank]
    · simp [hblank]
  · rw [if_neg hb] at h
    have hnb : pyStrip raw ≠ ("") := fun hh => hb (Or.inr hh)
    have hnbl : pyStripL raw.data ≠ [] := by
      intro hh
      exact hnb ((pyStrip_eq_empty raw).mpr hh)
    have hfb : ∀ r0 : PromptImprovementResult, r0.error = none → r0.success = true →
        parse_text_fallback o raw r0 = r →
        (r.improved_prompt = ("") ↔ pyStrip raw = ("")) ∧
        (r.error.isSome = true ↔ pyStrip raw = ("")) ∧ r.success = true := by
      intro r0 he hs hr
      obtain ⟨hi, herr, hsucc⟩ := parse_text_fallback_spec o raw r0 hnbl
      rw [hr] at hi herr hsucc
      refine ⟨?_, ?_, ?_⟩
      · constructor
        · intro hcon; exact absurd hcon hi
        · intro hcon; exact absurd hcon hnb
      · rw [herr, he]
        constructor
        · intro hcon; cases hcon
        · intro hcon; exact absurd hcon hnb
      · rw [hsucc, hs]
    cases hj : findJsonMatch raw.data with
    | none =>
      rw [hj] at h
      dsimp only at h
      exact hfb _ rfl rfl (Except.ok.inj h)
    | some jchars =>
      rw [hj] at h
      dsimp only at h
      cases hl : json_loads (String.mk jchars) with
      | error e =>
        rw [hl] at h
        cases e with
        | decodeError msg =>
          dsimp only at h
          exact hfb _ rfl rfl (Except.ok.inj h)
        | recursionError =>
          dsimp only at h
          cases h
      | ok data =>
        rw [hl] at h
        dsimp only at h
        cases hx : extract_json_fields data with
        | error e =>
          rw [hx] at h
          dsimp only at h
          cases h
        | ok f =>
          rw [hx] at h
          dsimp only at h
          by_cases hfi : f.improved ≠ ("")
          · rw [if_pos hfi] at h
            have hr := Except.ok.inj h
            subst hr
            refine ⟨?_, ?_, rfl⟩
            · constructor
              · intro hcon; exact absurd hcon hfi
              · intro hcon; exact absurd hcon hnb
            · constructor
              · intro hcon; cases hcon
              · intro hcon; exact absurd hcon hnb
          · rw [if_neg hfi] at h
            exact hfb _ rfl rfl (Except.ok.inj h)

/-! Claim theorems: the structured-response parser -/

/-- C7: for every raw text and every result the parser returns, the primary
`improved_prompt` is empty exactly when the raw text is empty or whitespace-only, and
exactly in that case the result carries the parse-empty error; any raw text with a
non-blank line yields a non-empty primary result with no error from the degradation
path. -/
theorem C7_primary_empty_iff_blank (o : ParseOracles) (raw orig name : String)
    (r : PromptImprovementResult)
    (h : parse_improvement_response o raw orig name = .ok r) :
    (r.improved_prompt = ("") ↔ pyStrip raw = ("")) ∧
    (r.error.isSome = true ↔ pyStrip raw = ("")) :=
  ⟨(parse_result_spec o raw orig name r h).1, (parse_result_spec o raw orig name r h).2.1⟩

/-- Witness for C7 at the concrete raw text `"Line one.\nLine two."`: the parser
returns the whole text as the primary result, with no error. -/
theorem C7_primary_empty_iff_blank_witness :
    ((("Line one.\nLine two.") : String) = ("") ↔ pyStrip ("Line one.\nLine two.") = ("")) ∧
    ((none : Option String).isSome = true ↔ pyStrip ("Line one.\nLine two.") = ("")) :=
  C7_primary_empty_iff_blank noMatchOracles ("Line one.\nLine two.") ("p") ("m")
    ⟨("p"), ("Line one.\nLine two."), [], none, none, none, ("m"), none, true⟩ rfl

/-- C4 counterexample: the claim says `parse_improvement_response` never raises, even
when the embedded JSON decodes to a non-string `"improved"` value; but the decoded
value hits `.strip()` (src/network.py line 549) and the resulting `AttributeError`
escapes the function — no layer catches it.  Both an integer and the `NaN` float
literal (which `json.loads` accepts by default) exhibit it. -/
theorem C4_counterexample :
    parse_improvement_response noMatchOracles ("\x7b\"improved\": 1\x7d") ("p") ("m")
      = .error (.attributeError ("strip")) ∧
    parse_improvement_response noMatchOracles ("\x7b\"improved\": NaN\x7d") ("p") ("m")
      = .error (.attributeError ("strip")) := ⟨rfl, rfl⟩

/-- C4 (amended): `parse_improvement_response` returns a result without raising
provided that whenever its embedded-JSON extraction finds and decodes an object, the
field extraction on the decoded values succeeds (in particular when `"improved"`,
`"alternatives"` and the three `_version` fields are well-typed — `json.loads` also
accepts `NaN`/`Infinity`/`-Infinity`, which are NOT well-typed for these fields), and
decoding does not exceed the interpreter recursion limit; in that case an error is
recorded exactly in the blank-input case.  (As stated, the claim is false: ill-typed
decoded values raise an uncaught `AttributeError`/`TypeError`, and deep nesting an
uncaught `RecursionError`.) -/
theorem C4_no_raise_amended (o : ParseOracles) (raw orig name : String)
    (hsafe : ∀ j data, findJsonMatch raw.data = some j →
      json_loads (String.mk j) = .ok data → ∃ f, extract_json_fields data = .ok f)
    (hdepth : ∀ j, findJsonMatch raw.data = some j →
      json_loads (String.mk j) ≠ .error .recursionError) :
    ∃ r, parse_improvement_response o raw orig name = .ok r ∧
      (r.error.isSome = true ↔ pyStrip raw = ("")) := by
  have hok : ∃ r, parse_improvement_response o raw orig name = .ok r := by
    unfold parse_improvement_response
    by_cases hb : raw = ("") ∨ pyStrip raw = ("")
    · rw [if_pos hb]
      exact ⟨_, rfl⟩
    · rw [if_neg hb]
      cases hj : findJsonMatch raw.data with
      | none => exact ⟨_, rfl⟩
      | some j =>
        dsimp only
        cases hl : json_loads (String.mk j) with
        | error e =>
          cases e with
          | decodeError msg => exact ⟨_, rfl⟩
          | recursionError => exact absurd hl (hdepth j hj)
        | ok data =>
          dsimp only
          obtain ⟨f, hf⟩ := hsafe j data hj hl
          rw [hf]
          dsimp only
          by_cases hfi : f.improved ≠ ("")
          · rw [if_pos hfi]
            exact ⟨_, rfl⟩
          · rw [if_neg hfi]
            exact ⟨_, rfl⟩
  obtain ⟨r, hr⟩ := hok
  exact ⟨r, hr, (parse_result_spec o raw orig name r hr).2.1⟩

/-- Witness for the amended C4 at the raw text `"hello"` (no embedded JSON, so both
safety hypotheses are vacuous). -/
theorem C4_no_raise_amended_witness :
    ∃ r, parse_improvement_response noMatchOracles ("hello") ("p") ("m") = .ok r ∧
      (r.error.isSome = true ↔ pyStrip ("hello") = ("")) :=
  C4_no_raise_amended noMatchOracles ("hello") ("p") ("m")
    (fun _ _ hj _ => Option.noConfusion hj)
    (fun _ hj => Option.noConfusion hj)

/-- C2 counterexample: the claim says the parse of raw text containing
`\x7b"improved":"X","alternatives":["A","B","C","D"]\x7d` keeps at most 3 alternatives
(`["A","B","C"]`); but the JSON layer (src/network.py line 550) does not truncate, so
the result carries all four alternatives. -/
theorem C2_counterexample :
    parse_improvement_response noMatchOracles
      ("\x7b\"improved\":\"X\",\"alternatives\":[\"A\",\"B\",\"C\",\"D\"]\x7d") ("p") ("m")
      = .ok ⟨("p"), ("X"), [("A"), ("B"), ("C"), ("D")], none, none, none, ("m"),
            none, true⟩ := rfl

/-- C2 (amended): when the raw text contains a brace-delimited JSON object that
decodes, whose fields extract cleanly, and whose `"improved"` field strips to a
non-empty string, the JSON layer populates the primary result from that field and the
alternatives list holds ALL non-empty stripped entries in document order — with no
truncation to 3 (for the claim's example input the result has 4 alternatives
`["A","B","C","D"]`, not 3). -/
theorem C2_json_layer_amended (o : ParseOracles) (raw orig name : String)
    (j : List Char) (data : JValue) (f : JsonFields)
    (h1 : findJsonMatch raw.data = some j)
    (h2 : json_loads (String.mk j) = .ok data)
    (h3 : extract_json_fields data = .ok f)
    (h4 : f.improved ≠ ("")) :
    parse_improvement_response o raw orig name =
      .ok ⟨orig, f.improved, f.alternatives, f.code_version, f.analysis_version,
           f.creative_version, name, none, true⟩ := by
  have hsp : pyStrip raw = ("") → False := by
    intro hb
    have hall := (pyStripL_eq_nil raw.data).mp ((pyStrip_eq_empty raw).mp hb)
    rw [findJsonMatch_all_space raw.data hall] at h1
    cases h1
  have hnb : ¬(raw = ("") ∨ pyStrip raw = ("")) := by
    rintro (hb | hb)
    · subst hb
      exact hsp rfl
    · exact hsp hb
  unfold parse_improvement_response
  rw [if_neg hnb, h1]
  dsimp only
  rw [h2]
  dsimp only
  rw [h3]
  dsimp only
  rw [if_pos h4]
  rfl

/-- Witness for the amended C2: raw text with the JSON object embedded in surrounding
prose, an empty alternative (dropped) and a padded one (stripped). -/
theorem C2_json_layer_amended_witness :
    parse_improvement_response noMatchOracles
      ("Вот: \x7b\"improved\": \"X\", \"alternatives\": [\"A\", \"\", \" B \"]\x7d конец")
      ("p") ("m")
      = .ok ⟨("p"), ("X"), [("A"), ("B")], none, none, none, ("m"), none, true⟩ :=
  C2_json_layer_amended noMatchOracles
    ("Вот: \x7b\"improved\": \"X\", \"alternatives\": [\"A\", \"\", \" B \"]\x7d конец")
    ("p") ("m")
    (("\x7b\"improved\": \"X\", \"alternatives\": [\"A\", \"\", \" B \"]\x7d").data)
    (.obj [(("improved"), .str ("X")),
           (("alternatives"), .arr [.str ("A"), .str (""), .str (" B ")])])
    ⟨("X"), [("A"), ("B")], none, none, none⟩
    rfl rfl rfl (by decide)

/-- Helper: every `send_prompt_to_model` outcome is built by `APIResponse.init`, whose
`success` is derived from its final `error`. -/
theorem send_prompt_to_model_success_iff (env : Option String)
    (post : HttpRequest → PostOutcome) (el : Rat) (model : Model) (prompt : String) :
    ((send_prompt_to_model env post el model prompt).1).success =
      ((send_prompt_to_model env post el model prompt).1).error.isNone := by
  unfold send_prompt_to_model
  repeat' split
  all_goals rfl

/-- Helper: the derived-success invariant holds for every outcome in a parallel
dispatch. -/
theorem send_prompts_parallel_success_iff (env : Option String)
    (post : HttpRequest → PostOutcome) (el : Model → Rat) (models : List Model)
    (prompt : String) (order : List Model) :
    ((send_prompts_parallel env post el models prompt order).1).all
      (fun r => r.success == r.error.isNone) = true := by
  rw [List.all_eq_true]
  intro r hr
  simp only [send_prompts_parallel] at hr
  obtain ⟨m, hm, rfl⟩ := List.mem_map.mp hr
  rw [send_prompt_to_model_success_iff]
  exact beq_self_eq_true _

/-- Helper: `improve_prompt_via_model` results with no error always report success
(its own error results are constructor-built; parse passthrough results always have
`success = true`). -/
theorem improve_error_none_success (env : Option String)
    (post : HttpRequest → PostOutcome) (o : ParseOracles) (model : Model)
    (orig : String) (adapt : Bool) :
    ((improve_prompt_via_model env post o model orig adapt).1).error = none →
    ((improve_prompt_via_model env post o model orig adapt).1).success = true := by
  unfold improve_prompt_via_model
  dsimp only
  repeat' split
  all_goals intro h
  all_goals
    first
      | (rename_i hparse
         exact (parse_result_spec _ _ _ _ _ hparse).2.2)
      | exact absurd h (by simp [PromptImprovementResult.init])

/-- C3 counterexample: the claim says the success flag is true iff the error field is
absent for every result observed by a caller; but `parse_improvement_response` on a
blank raw text post-assigns `result.error` without recomputing `success`
(src/network.py line 539), so the returned result has an error set AND
`success = true`. -/
theorem C3_counterexample :
    (parse_improvement_response noMatchOracles ("") ("p") ("m")).map
      (fun r => (r.success, r.error.isSome)) = .ok (true, true) := rfl

/-- C3 (amended): the success flag equals "error is absent" for every `APIResponse`
produced by `send_prompt_to_model` and `send_prompts_parallel`; but
`PromptImprovementResult`s returned by `parse_improvement_response` ALWAYS have
`success = true` — the parser's two post-construction error assignments (blank input,
final validation) skip the derived flag — so for parser results (and results of
`improve_prompt_via_model` that pass them through) only the direction "error absent →
success" survives. -/
theorem C3_success_error_amended :
    (∀ env post el model prompt,
       ((send_prompt_to_model env post el model prompt).1).success =
         ((send_prompt_to_model env post el model prompt).1).error.isNone) ∧
    (∀ env post el models prompt order,
       ((send_prompts_parallel env post el models prompt order).1).all
         (fun r => r.success == r.error.isNone) = true) ∧
    (∀ o raw orig name r, parse_improvement_response o raw orig name = .ok r →
       r.success = true) ∧
    (∀ env post o model orig adapt,
       ((improve_prompt_via_model env post o model orig adapt).1).error = none →
       ((improve_prompt_via_model env post o model orig adapt).1).success = true) :=
  ⟨send_prompt_to_model_success_iff, send_prompts_parallel_success_iff,
   fun o raw orig name r h => (parse_result_spec o raw orig name r h).2.2,
   improve_error_none_success⟩

/-- Witness for the amended C3: the blank-input parse result (error set, success still
true), and a successful end-to-end improvement call (error absent, success true). -/
theorem C3_success_error_amended_witness :
    (PromptImprovementResult.mk ("p") ("") [] none none none ("m")
        (some ("Пустой ответ от модели")) true).success = true ∧
    ((improve_prompt_via_model (some ("key"))
        (fun _ => PostOutcome.response 200 (some (JValue.obj
          [(("choices"), JValue.arr [JValue.obj [(("message"), JValue.obj
            [(("content"), JValue.str ("hello"))])]])])))
        noMatchOracles
        (Model.mk 1 ("openai/gpt-4") none ("") true ("") ("")) ("make it better")
        true).1).success = true :=
  ⟨C3_success_error_amended.2.2.1 noMatchOracles ("") ("p") ("m") _ rfl,
   C3_success_error_amended.2.2.2 (some ("key")) _ noMatchOracles _ ("make it better")
     true rfl⟩

/-! Claim theorems: the dispatcher -/

/-- Helper: every branch of `send_prompt_to_model` stamps the outcome with the input
model's id. -/
theorem send_prompt_to_model_model_id (env : Option String)
    (post : HttpRequest → PostOutcome) (el : Rat) (model : Model) (prompt : String) :
    ((send_prompt_to_model env post el model prompt).1).model_id = model.id := by
  unfold send_prompt_to_model
  repeat' split
  all_goals rfl

/-- Concrete fixtures for witnesses. -/
def wModelA : Model := ⟨1, ("a"), none, (""), true, (""), ("")⟩

def wModelB : Model := ⟨2, ("b"), none, (""), true, (""), ("")⟩

def wFailPost : HttpRequest → PostOutcome := fun _ => .transportError ("")

/-- C1: for every completion order (any permutation of the input list),
`send_prompts_parallel` returns exactly one outcome per input model, the outcome ids
are a permutation of the input ids (so with distinct input ids each appears exactly
once), and the empty input yields the empty output with no HTTP request issued. -/
theorem C1_dispatch_outcomes (env : Option String) (post : HttpRequest → PostOutcome)
    (elapsed : Model → Rat) (models : List Model) (prompt : String) (order : List Model)
    (h : order.Perm models) :
    ((send_prompts_parallel env post elapsed models prompt order).1).length
      = models.length ∧
    (((send_prompts_parallel env post elapsed models prompt order).1).map
        APIResponse.model_id).Perm (models.map Model.id) ∧
    ((models.map Model.id).Nodup → ∀ i ∈ models.map Model.id,
      (((send_prompts_parallel env post elapsed models prompt order).1).map
        APIResponse.model_id).count i = 1) ∧
    (models = [] →
      (send_prompts_parallel env post elapsed models prompt order).1 = [] ∧
      (send_prompts_parallel env post elapsed models prompt order).2.2 = []) := by
  have hmap : ((send_prompts_parallel env post elapsed models prompt order).1).map
      APIResponse.model_id = order.map Model.id := by
    simp only [send_prompts_parallel, List.map_map]
    exact List.map_congr_left
      (fun m _ => send_prompt_to_model_model_id env post (elapsed m) m prompt)
  have hperm : (order.map Model.id).Perm (models.map Model.id) := h.map Model.id
  refine ⟨?_, ?_, ?_, ?_⟩
  · simp only [send_prompts_parallel, List.length_map]
    exact h.length_eq
  · rw [hmap]
    exact hperm
  · intro hnd i hi
    rw [hmap, hperm.count_eq]
    exact List.count_eq_one_of_mem hnd hi
  · intro hempty
    subst hempty
    have ho : order = [] := List.Perm.eq_nil h
    subst ho
    exact ⟨rfl, rfl⟩

/-- Witness for C1: two models dispatched, completing in reversed order. -/
theorem C1_dispatch_outcomes_witness :
    ((send_prompts_parallel none wFailPost (fun _ => 0) [wModelA, wModelB] ("hi")
        [wModelB, wModelA]).1).length = ([wModelA, wModelB] : List Model).length ∧
    (((send_prompts_parallel none wFailPost (fun _ => 0) [wModelA, wModelB] ("hi")
        [wModelB, wModelA]).1).map APIResponse.model_id).Perm
      (([wModelA, wModelB] : List Model).map Model.id) ∧
    ((([wModelA, wModelB] : List Model).map Model.id).Nodup →
      ∀ i ∈ ([wModelA, wModelB] : List Model).map Model.id,
      (((send_prompts_parallel none wFailPost (fun _ => 0) [wModelA, wModelB] ("hi")
        [wModelB, wModelA]).1).map APIResponse.model_id).count i = 1) ∧
    (([wModelA, wModelB] : List Model) = [] →
      (send_prompts_parallel none wFailPost (fun _ => 0) [wModelA, wModelB] ("hi")
        [wModelB, wModelA]).1 = [] ∧
      (send_prompts_parallel none wFailPost (fun _ => 0) [wModelA, wModelB] ("hi")
        [wModelB, wModelA]).2.2 = []) :=
  C1_dispatch_outcomes none wFailPost (fun _ => 0) [wModelA, wModelB] ("hi")
    [wModelB, wModelA] (List.Perm.swap wModelA wModelB [])

/-- C5: for a batch of N models the progress callback is invoked exactly N times, with
`completed` running strictly through 1..N in call order, `total` always N, and the
final call reporting `completed = total = N`.  (The serialisation of the calls under
the mutex is what the linearised `order` models.) -/
theorem C5_progress_callbacks (env : Option String) (post : HttpRequest → PostOutcome)
    (elapsed : Model → Rat) (models : List Model) (prompt : String) (order : List Model)
    (h : order.Perm models) :
    (send_prompts_parallel env post elapsed models prompt order).2.1
      = (List.range models.length).map (fun i => (i + 1, models.length)) ∧
    (models ≠ [] →
      ((send_prompts_parallel env post elapsed models prompt order).2.1).getLast?
        = some (models.length, models.length)) := by
  have hlen : order.length = models.length := h.length_eq
  constructor
  · simp only [send_prompts_parallel]
    rw [hlen]
  · intro hne
    simp only [send_prompts_parallel]
    rw [hlen]
    obtain ⟨n, hn⟩ :=
      Nat.exists_eq_succ_of_ne_zero (fun h0 => hne (List.length_eq_zero.mp h0))
    rw [hn, List.range_succ, List.map_append]
    simp

/-- Witness for C5: the two-model batch of the C1 witness yields exactly the calls
`[(1, 2), (2, 2)]`. -/
theorem C5_progress_callbacks_witness :
    (send_prompts_parallel none wFailPost (fun _ => 0) [wModelA, wModelB] ("hi")
        [wModelB, wModelA]).2.1
      = (List.range ([wModelA, wModelB] : List Model).length).map
          (fun i => (i + 1, ([wModelA, wModelB] : List Model).length)) ∧
    (([wModelA, wModelB] : List Model) ≠ [] →
      ((send_prompts_parallel none wFailPost (fun _ => 0) [wModelA, wModelB] ("hi")
          [wModelB, wModelA]).2.1).getLast?
        = some (([wModelA, wModelB] : List Model).length,
                ([wModelA, wModelB] : List Model).length)) :=
  C5_progress_callbacks none wFailPost (fun _ => 0) [wModelA, wModelB] ("hi")
    [wModelB, wModelA] (List.Perm.swap wModelA wModelB [])

/-- C6: when the `OPENROUTER_API_KEY` environment variable is unset or blank, the
outcome is a failed response with the credential-missing error, empty text, elapsed
time 0, and no HTTP request is issued for that model. -/
theorem C6_credential_missing (env : Option String) (post : HttpRequest → PostOutcome)
    (el : Rat) (model : Model) (prompt : String)
    (h : env = none ∨ ∃ s, env = some s ∧ pyStrip s = ("")) :
    ((send_prompt_to_model env post el model prompt).1).error = some credMissingMsg ∧
    ((send_prompt_to_model env post el model prompt).1).response_text = .str ("") ∧
    ((send_prompt_to_model env post el model prompt).1).response_time = 0 ∧
    ((send_prompt_to_model env post el model prompt).1).success = false ∧
    (send_prompt_to_model env post el model prompt).2 = [] := by
  have hk : get_api_key env = none ∨ get_api_key env = some ("") := by
    rcases h with rfl | ⟨s, rfl, hs⟩
    · exact Or.inl rfl
    · by_cases h0 : s = ("")
      · exact Or.inl (by simp [get_api_key, h0])
      · exact Or.inr (by simp [get_api_key, h0, hs])
  rcases hk with hk | hk
  · unfold send_prompt_to_model
    rw [hk]
    exact ⟨rfl, rfl, rfl, rfl, rfl⟩
  · unfold send_prompt_to_model
    rw [hk]
    dsimp only
    rw [if_pos rfl]
    exact ⟨rfl, rfl, rfl, rfl, rfl⟩

/-- Witness for C6: a whitespace-only environment value (strips to blank). -/
theorem C6_credential_missing_witness :
    ((send_prompt_to_model (some ("  ")) wFailPost 0 wModelA ("hi")).1).error
        = some credMissingMsg ∧
    ((send_prompt_to_model (some ("  ")) wFailPost 0 wModelA ("hi")).1).response_text
        = .str ("") ∧
    ((send_prompt_to_model (some ("  ")) wFailPost 0 wModelA ("hi")).1).response_time
        = 0 ∧
    ((send_prompt_to_model (some ("  ")) wFailPost 0 wModelA ("hi")).1).success
        = false ∧
    (send_prompt_to_model (some ("  ")) wFailPost 0 wModelA ("hi")).2 = [] :=
  C6_credential_missing (some ("  ")) wFailPost 0 wModelA ("hi")
    (Or.inr ⟨("  "), rfl, rfl⟩)

/-! Claim theorems: the provider adapter path -/

/-- Helper: `send_openrouter_request` always issues exactly its one built request. -/
theorem send_openrouter_request_trace (post : HttpRequest → PostOutcome)
    (k mn p : String) (u : Option String) :
    (send_openrouter_request post k mn p u).2 = [openrouterRequest k mn p u] := by
  unfold send_openrouter_request
  dsimp only
  repeat' split
  all_goals rfl

/-- Helper: a 2xx JSON response whose extraction succeeds yields the extracted
dictionary. -/
theorem send_openrouter_request_ok (post : HttpRequest → PostOutcome)
    (k mn p : String) (u : Option String) (status : Nat) (data : JValue)
    (res : SendResultDict)
    (hpost : post (openrouterRequest k mn p u) = .response status (some data))
    (h400 : ¬ 400 ≤ status) (hex : extract_chat_result data = .ok res) :
    (send_openrouter_request post k mn p u).1 = .ok res := by
  unfold send_openrouter_request
  dsimp only
  rw [hpost]
  dsimp only
  rw [if_neg h400]
  exact hex

/-- C9: whatever a model's declared `model_type`, `send_prompt_to_model` issues
exactly one HTTP request, built by the gateway-style (OpenRouter) adapter — chat body
`\x7bmodel, messages:[\x7brole:"user", content: prompt\x7d], temperature: 0.7\x7d`
with a bearer Authorization header — and on a well-formed 2xx response extracts
`choices[0].message.content` and `usage.total_tokens`.  The Anthropic-native request
shape (`send_anthropic_request`) never appears in the trace. -/
theorem C9_gateway_only (env : Option String) (post : HttpRequest → PostOutcome)
    (el : Rat) (model : Model) (prompt : String) (k : String)
    (h1 : get_api_key env = some k) (h2 : k ≠ ("")) :
    (send_prompt_to_model env post el model prompt).2
      = [openrouterRequest k model.name prompt model.api_url] ∧
    (∀ status data res,
      post (openrouterRequest k model.name prompt model.api_url)
          = .response status (some data) →
      ¬ 400 ≤ status →
      extract_chat_result data = .ok res →
      ((send_prompt_to_model env post el model prompt).1).response_text = res.text ∧
      ((send_prompt_to_model env post el model prompt).1).tokens_used
        = res.tokens_used ∧
      ((send_prompt_to_model env post el model prompt).1).error = none) := by
  constructor
  · have htr := send_openrouter_request_trace post k model.name prompt model.api_url
    unfold send_prompt_to_model
    rw [h1]
    dsimp only
    rw [if_neg h2]
    cases hY : send_openrouter_request post k model.name prompt model.api_url with
    | mk fst snd =>
      rw [hY] at htr
      dsimp only at htr
      subst htr
      cases fst with
      | ok r => rfl
      | error e => cases e <;> rfl
  · intro status data res hpost h400 hex
    have hok := send_openrouter_request_ok post k model.name prompt model.api_url
      status data res hpost h400 hex
    unfold send_prompt_to_model
    rw [h1]
    dsimp only
    rw [if_neg h2]
    cases hY : send_openrouter_request post k model.name prompt model.api_url with
    | mk fst snd =>
      rw [hY] at hok
      dsimp only at hok
      subst hok
      exact ⟨rfl, rfl, rfl⟩

/-- A well-formed OpenRouter-style 2xx body used by witnesses. -/
def wBody : JValue :=
  .obj [(("choices"), .arr [.obj [(("message"), .obj [(("content"), .str ("ok"))])]]),
        (("usage"), .obj [(("total_tokens"), .num 12)])]

/-- A model declared Anthropic-native, to exercise the "regardless of provider kind"
part of C9. -/
def wModelC : Model := ⟨3, ("anthropic/claude-3-haiku"), none, (""), true,
  ("anthropic"), ("")⟩

/-- Witness for C9: an Anthropic-typed model is still sent through the OpenRouter
request shape, and the chat-completion body is extracted. -/
theorem C9_gateway_only_witness :
    (send_prompt_to_model (some ("key")) (fun _ => PostOutcome.response 200 (some wBody))
        0 wModelC ("hi")).2
      = [openrouterRequest ("key") wModelC.name ("hi") wModelC.api_url] ∧
    ((send_prompt_to_model (some ("key")) (fun _ => PostOutcome.response 200 (some wBody))
        0 wModelC ("hi")).1).response_text = JValue.str ("ok") ∧
    ((send_prompt_to_model (some ("key")) (fun _ => PostOutcome.response 200 (some wBody))
        0 wModelC ("hi")).1).tokens_used = JValue.num 12 ∧
    ((send_prompt_to_model (some ("key")) (fun _ => PostOutcome.response 200 (some wBody))
        0 wModelC ("hi")).1).error = none := by
  have H := C9_gateway_only (some ("key"))
    (fun _ => PostOutcome.response 200 (some wBody)) 0 wModelC ("hi") ("key") rfl
    (by decide)
  have H2 := H.2 200 wBody ⟨.str ("ok"), .num 12, wBody⟩ rfl (by decide) rfl
  exact ⟨H.1, H2.1, H2.2.1, H2.2.2⟩

/-- C10: an empty or whitespace-only original prompt is rejected up front:
`improve_prompt_via_model` returns an error result (success false) having performed no
credential lookup, no HTTP request and no parse. -/
theorem C10_blank_prompt (env : Option String) (post : HttpRequest → PostOutcome)
    (o : ParseOracles) (model : Model) (original : String) (adapt : Bool)
    (h : original = ("") ∨ pyStrip original = ("")) :
    ((improve_prompt_via_model env post o model original adapt).1).error
        = some ("Исходный промт пуст") ∧
    ((improve_prompt_via_model env post o model original adapt).1).success = false ∧
    (improve_prompt_via_model env post o model original adapt).2 = ⟨0, [], 0⟩ := by
  unfold improve_prompt_via_model
  rw [if_pos h]
  exact ⟨rfl, rfl, rfl⟩

/-- Witness for C10: a whitespace-only original prompt. -/
theorem C10_blank_prompt_witness :
    ((improve_prompt_via_model (some ("key")) wFailPost noMatchOracles wModelA ("   ")
        true).1).error = some ("Исходный промт пуст") ∧
    ((improve_prompt_via_model (some ("key")) wFailPost noMatchOracles wModelA ("   ")
        true).1).success = false ∧
    (improve_prompt_via_model (some ("key")) wFailPost noMatchOracles wModelA ("   ")
        true).2 = ⟨0, [], 0⟩ :=
  C10_blank_prompt (some ("key")) wFailPost noMatchOracles wModelA ("   ") true
    (Or.inr rfl)
